import Mathlib

/-!
Verification of the llama-swap patch-application engine and runtime
interception guard against their specification.

The embedded code consists of three scripts:
- `src/mods/vllm-marlin-sm12x-build/patch_streaming.py` (Fix 0, Fix 1, Fix 2)
- `src/mods/vllm-marlin-sm12x-build/patch_transformers.py` (Patches 3, 4, 5, 7, 8, 11)
- `src/proxy/pyshim/sitecustomize.py` (runtime interception guard)

File contents are modelled as `List Char`; Python string operations
(`in`, `str.replace` bounded and unbounded, `split`, `strip`, `join`)
are embedded as executable functions below, and each patch's branch
structure is embedded as a step function `content -> content x outcome`.
-/

set_option maxRecDepth 40000

/-- Python `s.startswith(p)` on character lists. -/
def prefixCheck : List Char → List Char → Bool
  | [], _ => true
  | _ :: _, [] => false
  | a :: as, b :: bs => a == b && prefixCheck as bs

/-- Python substring test `p in s` on character lists. -/
def containsSub (p : List Char) : List Char → Bool
  | [] => p.isEmpty
  | c :: cs => prefixCheck p (c :: cs) || containsSub p cs

/-- Python `s.replace(p, r, 1)`: replace the first occurrence of `p` only
(for the nonempty patterns used by the scripts). -/
def replaceOne (p r : List Char) : List Char → List Char
  | [] => []
  | c :: cs =>
      if prefixCheck p (c :: cs) = true then r ++ cs.drop (p.length - 1)
      else c :: replaceOne p r cs

/-- Worker for `replaceAll`, structurally recursive on a fuel bound so that
it reduces inside the kernel; the fuel is always at least the length of the
scanned list. -/
def replaceAllGo (p r : List Char) : Nat → List Char → List Char
  | _, [] => []
  | 0, s => s
  | fuel + 1, c :: cs =>
      if prefixCheck p (c :: cs) = true then
        r ++ replaceAllGo p r fuel (cs.drop (p.length - 1))
      else c :: replaceAllGo p r fuel cs

/-- Python unbounded `s.replace(p, r)`: replace every (left-to-right,
non-overlapping) occurrence of `p` (for the nonempty patterns used by the
scripts). -/
def replaceAll (p r s : List Char) : List Char :=
  replaceAllGo p r s.length s

/-- Python `s.split('\n')`. -/
def splitNl : List Char → List (List Char)
  | [] => [[]]
  | c :: cs =>
      if c = '\n' then [] :: splitNl cs
      else
        match splitNl cs with
        | [] => [[c]]
        | l :: ls => (c :: l) :: ls

/-- Python `'\n'.join(lines)`. -/
def joinNl : List (List Char) → List Char
  | [] => []
  | [l] => l
  | l :: l2 :: ls => l ++ '\n' :: joinNl (l2 :: ls)

/-- Python whitespace characters recognised by `str.strip`. -/
def isPySpace (c : Char) : Bool :=
  c = ' ' || c = '\t' || c = '\n' || c = '\r' || c = '\x0b' || c = '\x0c'

/-- Python `s.strip()`. -/
def pyStrip (s : List Char) : List Char :=
  ((s.dropWhile isPySpace).reverse.dropWhile isPySpace).reverse

/-- Index assigned by the scripts' scan loops
(`for i, line in enumerate(lines): if cond: var = i`):
the LAST index whose line satisfies the predicate, or `none`. -/
def lastMatchIdx (p : List Char → Bool) : List (List Char) → Option Nat
  | [] => none
  | l :: ls =>
      match lastMatchIdx p ls with
      | some i => some (i + 1)
      | none => if p l then some 0 else none

/-- Python `s.endswith(p)`. -/
def suffixCheck (p s : List Char) : Bool :=
  prefixCheck p.reverse s.reverse

/-- Per-(patch, file) outcome, as reported by the scripts' print branches. -/
inductive Outcome where
  | applied
  | alreadyApplied
  | noMatch
deriving DecidableEq

/-- Fix 1 idempotency marker `'_has_tc'` (patch_streaming.py line 50). -/
def hasTcMarker : List Char := ("_has_tc").data

/-- Fix 1 anchor line for the content check (patch_streaming.py line 56). -/
def contentCheckPat : List Char :=
  ("if origin_chunk.choices[0].delta.content is not None:").data

/-- Fix 1 anchor line for the tool_calls elif (patch_streaming.py line 58). -/
def toolCallsElifPat : List Char :=
  ("elif len(origin_chunk.choices[0].delta.tool_calls) > 0:").data

/-- Fix 1 replacement for the content-check line (patch_streaming.py
lines 65-69), an f-string over the captured indentation. -/
def fix1Repl (indent : List Char) : List Char :=
  indent ++ ("_has_tc = (origin_chunk.choices[0].delta.tool_calls\n").data
    ++ indent ++ ("           and len(origin_chunk.choices[0].delta.tool_calls) > 0)\n").data
    ++ indent ++ ("if origin_chunk.choices[0].delta.content is not None and not _has_tc:").data

/-- Fix 1 replacement for the elif line (patch_streaming.py line 70),
without the captured indentation. -/
def elifHasTc : List Char := ("elif _has_tc:").data

/-- Fix 2 idempotency marker (patch_streaming.py line 131). -/
def glm47Marker : List Char := ("glm47 parser sends").data

/-- Patch 4 idempotency marker (patch_transformers.py lines 88, 93). -/
def moeMarker : List Char := ("MoE fallback").data

/-- Patch 3 single-quoted pattern (patch_transformers.py line 40). -/
def extraForbidSq : List Char := ("extra=\x27forbid\x27").data

/-- Patch 3 single-quoted replacement (patch_transformers.py line 41). -/
def extraIgnoreSq : List Char := ("extra=\x27ignore\x27").data

/-- Patch 3 double-quoted pattern (patch_transformers.py line 40). -/
def extraForbidDq : List Char := ("extra=\"forbid\"").data

/-- Patch 3 double-quoted replacement (patch_transformers.py line 42). -/
def extraIgnoreDq : List Char := ("extra=\"ignore\"").data

/-- Patch 8 idempotency marker (patch_transformers.py line 184). -/
def escMarker : List Char :=
  ("ignore_unexpected_suffixes.append(\"e_score_correction_bias\")").data
/-- Literal from patch_streaming.py lines 83-95: the Fix 2 pattern old_tool_start. -/
def oldToolStart : List Char :=
  ("                                data = chunk.model_dump_json(exclude_unset=True)\n                                yield wrap_data_with_event(data, \"content_block_start\")\n                                content_block_started = True\n\n                            else:\n                                chunk = AnthropicStreamEvent(\n                                    index=content_block_index,\n                                    type=\"content_block_delta\",\n                                    delta=AnthropicDelta(\n                                        type=\"input_json_delta\",\n                                        partial_json=tool_call.function.arguments\n                                        if tool_call.function\n                                        else None,").data

/-- Literal from patch_streaming.py lines 97-125: the Fix 2 replacement new_tool_start. -/
def newToolStart : List Char :=
  ("                                data = chunk.model_dump_json(exclude_unset=True)\n                                yield wrap_data_with_event(data, \"content_block_start\")\n                                content_block_started = True\n\n                                # glm47 parser sends id+name+args in one chunk\n                                if (tool_call.function\n                                        and tool_call.function.arguments):\n                                    _args_chunk = AnthropicStreamEvent(\n                                        index=content_block_index,\n                                        type=\"content_block_delta\",\n                                        delta=AnthropicDelta(\n                                            type=\"input_json_delta\",\n                                            partial_json=tool_call.function.arguments,\n                                        ),\n                                    )\n                                    _args_data = _args_chunk.model_dump_json(\n                                        exclude_unset=True)\n                                    yield wrap_data_with_event(\n                                        _args_data, \"content_block_delta\")\n\n                            else:\n                                chunk = AnthropicStreamEvent(\n                                    index=content_block_index,\n                                    type=\"content_block_delta\",\n                                    delta=AnthropicDelta(\n                                        type=\"input_json_delta\",\n                                        partial_json=tool_call.function.arguments\n                                        if tool_call.function\n                                        else None,").data

/-- Literal from patch_transformers.py lines 65-69: the Patch 4 pattern old_raise. -/
def oldRaise : List Char :=
  ("    if matched_target is None:\n        raise ValueError(\n            f\"Unable to find matching target for {layer_name} in the \"\n            \"compressed-tensors config.\"\n        )").data

/-- Literal from patch_transformers.py lines 71-86: the Patch 4 replacement new_raise. -/
def newRaise : List Char :=
  ("    # Generic Linear fallback: if \"Linear\" is in targets and no match found,\n    # match it. Any layer reaching here through get_quant_method IS a linear\n    # layer (checked via isinstance(layer, LinearBase) or FusedMoE).\n    # This handles MoE expert layers and non-standard projection names\n    # (e.g., q_a_proj, kv_a_proj_with_mqa in GLM-4.7-Flash).\n    if matched_target is None:\n        for t in targets:\n            if t == \"Linear\" or t.endswith(\"Linear\"):\n                matched_target = t\n                break\n\n    if matched_target is None:\n        raise ValueError(\n            f\"Unable to find matching target for {layer_name} in the \"\n            \"compressed-tensors config.\"\n        )").data

/-- Literal from patch_transformers.py lines 186-190: Patch 8 vLLM 0.15 pattern old_init_015. -/
def oldInit015 : List Char :=
  ("        self.check_version(\"5.0.0.dev0\", \"MoE models support\")\n        super(MixtureOfExperts, self).__init__(vllm_config=vllm_config, prefix=prefix)").data

/-- Literal from patch_transformers.py lines 191-206: Patch 8 vLLM 0.15 replacement new_init_015. -/
def newInit015 : List Char :=
  ("        self.check_version(\"5.0.0.dev0\", \"MoE models support\")\n        super(MixtureOfExperts, self).__init__(vllm_config=vllm_config, prefix=prefix)\n        # GLM-4.7-Flash has e_score_correction_bias in MoE gate,\n        # but vLLM does not use it (use_grouped_topk=False)\n        self.ignore_unexpected_suffixes.append(\"e_score_correction_bias\")\n        # Ignore MTP (Multi-Token Prediction) layers not used at inference\n        _num_nextn = getattr(self.text_config, \"num_nextn_predict_layers\", 0)\n        if _num_nextn > 0:\n            _num_hidden = self.text_config.num_hidden_layers\n            for _i in range(_num_nextn):\n                self.ignore_unexpected_prefixes.append(f\"model.layers.{_num_hidden + _i}\")").data

/-- Literal from patch_transformers.py lines 209-212: Patch 8 vLLM 0.12 pattern old_init_012. -/
def oldInit012 : List Char :=
  ("        super(MixtureOfExperts, self).__init__(vllm_config=vllm_config, prefix=prefix)").data

/-- Literal from patch_transformers.py lines 213-227: Patch 8 vLLM 0.12 replacement new_init_012. -/
def newInit012 : List Char :=
  ("        super(MixtureOfExperts, self).__init__(vllm_config=vllm_config, prefix=prefix)\n        # GLM-4.7-Flash has e_score_correction_bias in MoE gate,\n        # but vLLM does not use it (use_grouped_topk=False)\n        self.ignore_unexpected_suffixes.append(\"e_score_correction_bias\")\n        # Ignore MTP (Multi-Token Prediction) layers not used at inference\n        _num_nextn = getattr(self.text_config, \"num_nextn_predict_layers\", 0)\n        if _num_nextn > 0:\n            _num_hidden = self.text_config.num_hidden_layers\n            for _i in range(_num_nextn):\n                self.ignore_unexpected_prefixes.append(f\"model.layers.{_num_hidden + _i}\")").data

/-- Fix 1 of patch_streaming.py (lines 49-78): marker check first, then a
line-anchored edit of the content-check / tool_calls-elif pair. The scan
loop keeps the last matching index for each anchor, the captured
indentation is the anchor line's leading whitespace, and both lines are
rewritten before the lines are rejoined. -/
def fix1Step (content : List Char) : List Char × Outcome :=
  if containsSub hasTcMarker content = true then (content, Outcome.alreadyApplied)
  else
    match lastMatchIdx (fun l => pyStrip l == contentCheckPat) (splitNl content),
          lastMatchIdx (fun l => pyStrip l == toolCallsElifPat) (splitNl content) with
    | some ci, some ti =>
        let lines := splitNl content
        let indent := (lines.getD ci []).takeWhile isPySpace
        let indent2 := (lines.getD ti []).takeWhile isPySpace
        (joinNl ((lines.set ci (fix1Repl indent)).set ti (indent2 ++ elifHasTc)),
         Outcome.applied)
    | _, _ => (content, Outcome.noMatch)

/-- Fix 2 of patch_streaming.py (lines 127-134): the pattern test comes
first; the marker is only consulted in the elif branch, and the
replacement is bounded to the first occurrence
(`content.replace(old_tool_start, new_tool_start, 1)`). -/
def fix2Step (content : List Char) : List Char × Outcome :=
  if containsSub oldToolStart content = true then
    (replaceOne oldToolStart newToolStart content, Outcome.applied)
  else if containsSub glm47Marker content = true then
    (content, Outcome.alreadyApplied)
  else (content, Outcome.noMatch)

/-- Patch 3 per-file transform of patch_transformers.py (lines 41-42):
two unbounded `str.replace` calls, single-quoted variant first. -/
def patch3Transform (fc : List Char) : List Char :=
  replaceAll extraForbidDq extraIgnoreDq (replaceAll extraForbidSq extraIgnoreSq fc)

/-- Patch 3 per-file step of patch_transformers.py (lines 40-46): transform
and rewrite only when either quoting variant of the pattern occurs. -/
def patch3FileStep (fc : List Char) : List Char × Bool :=
  if (containsSub extraForbidSq fc || containsSub extraForbidDq fc) = true then
    (patch3Transform fc, true)
  else (fc, false)

/-- Patch 4 per-file step of patch_transformers.py (lines 88-96):
apply when the pattern occurs and the marker does not (unbounded
`content.replace`), report already-applied when the marker occurs,
otherwise report no match. -/
def patch4Step (content : List Char) : List Char × Outcome :=
  if (containsSub oldRaise content && !(containsSub moeMarker content)) = true then
    (replaceAll oldRaise newRaise content, Outcome.applied)
  else if containsSub moeMarker content = true then
    (content, Outcome.alreadyApplied)
  else (content, Outcome.noMatch)

/-- Patch 8 per-file step of patch_transformers.py (lines 184-242): marker
check first; then the 0.15 pattern, then the 0.12 pattern (a suffix of the
0.15 one), each with its own unbounded replacement. -/
def patch8Step (content : List Char) : List Char × Outcome :=
  if containsSub escMarker content = true then (content, Outcome.alreadyApplied)
  else if containsSub oldInit015 content = true then
    (replaceAll oldInit015 newInit015 content, Outcome.applied)
  else if containsSub oldInit012 content = true then
    (replaceAll oldInit012 newInit012 content, Outcome.applied)
  else (content, Outcome.noMatch)

/-- Association-list lookup used by the filesystem model
(Python `open(path)` succeeding iff the file exists). -/
def lookupFile (p : String) : List (String × List Char) → Option (List Char)
  | [] => none
  | (q, d) :: rest => if q == p then some d else lookupFile p rest

/-- Association-list update used by the filesystem model
(Python `open(path, 'w').write(...)`): overwrite the existing entry,
or create the file. -/
def updateFiles (p : String) (c : List Char) :
    List (String × List Char) → List (String × List Char)
  | [] => [(p, c)]
  | (q, d) :: rest =>
      if q == p then (p, c) :: rest else (q, d) :: updateFiles p c rest

/-- Filesystem model for the content-patching scripts: text files keyed by
absolute path, plus the set of directories (for `os.path.isdir`). -/
structure Fs where
  files : List (String × List Char)
  dirs : List String
deriving DecidableEq

/-- Python `open(p).read()`, `none` when the open raises FileNotFoundError. -/
def Fs.readFile (fs : Fs) (p : String) : Option (List Char) :=
  lookupFile p fs.files

/-- Python `open(p, 'w').write(c)`. -/
def Fs.writeFile (fs : Fs) (p : String) (c : List Char) : Fs :=
  { fs with files := updateFiles p c fs.files }

/-- Python `os.path.isdir(p)`. -/
def Fs.isDir (fs : Fs) (p : String) : Bool :=
  fs.dirs.contains p

/-- Target of Fix 1 and Fix 2 (patch_streaming.py line 43). -/
def servingPath : String :=
  "/usr/local/lib/python3.12/dist-packages/vllm/entrypoints/anthropic/serving.py"

/-- Target of Fix 0 (patch_streaming.py line 19). -/
def indCfgPath : String :=
  "/usr/local/lib/python3.12/dist-packages/torch/_inductor/config.py"

/-- Fix 0 idempotency marker (patch_streaming.py line 23). -/
def a32Marker : List Char := ("assume_32bit_indexing").data

/-- Fix 0 pattern (patch_streaming.py line 25). -/
def icmOld : List Char := ("install_config_module(sys.modules[__name__])").data

/-- Fix 0 replacement (patch_streaming.py lines 26-28). -/
def icmNew : List Char :=
  ("# Added by patch: missing in NVIDIA PyTorch 2.10.0a0\nassume_32bit_indexing = True\n\ninstall_config_module(sys.modules[__name__])").data

/-- Fix 0 of patch_streaming.py (lines 19-41): guarded by
`os.path.exists`, marker check, unbounded replace, write back. -/
def fix0Step (fs : Fs) : Fs :=
  match fs.readFile indCfgPath with
  | none => fs
  | some src =>
      if containsSub a32Marker src = true then fs
      else fs.writeFile indCfgPath (replaceAll icmOld icmNew src)

/-- The whole of patch_streaming.py as acting on file contents
(lines 19-138): Fix 0 is guarded by an existence check, but serving.py is
then opened unconditionally (lines 43-45), so a missing serving.py raises
FileNotFoundError (modelled as `Except.error ()`) and ends the script;
otherwise Fix 1 and Fix 2 run in order and the file is rewritten iff
either reported applied. -/
def streamingScript (fs : Fs) : Except Unit (Fs × Outcome × Outcome) :=
  let fs0 := fix0Step fs
  match fs0.readFile servingPath with
  | none => Except.error ()
  | some content =>
      let r1 := fix1Step content
      let r2 := fix2Step r1.1
      let patched := r1.2 = Outcome.applied ∨ r2.2 = Outcome.applied
      Except.ok
        (if patched then fs0.writeFile servingPath r2.1 else fs0, r1.2, r2.2)

/-- Candidate vLLM installation roots (patch_transformers.py lines 20-21). -/
def vllmRootCandidates : List String :=
  ["/usr/local/lib/python3.12/dist-packages/vllm", "/opt/vllm/vllm-src/vllm"]

/-- Existing vLLM roots (patch_transformers.py lines 19-23):
the candidates filtered by `os.path.isdir`, in candidate order. -/
def vllmRoots (fs : Fs) : List String :=
  vllmRootCandidates.filter (fun r => fs.isDir r)

/-- Per-root target file of Patch 4 (patch_transformers.py lines 58-59). -/
def utilsPathOf (root : String) : String :=
  root ++ "/model_executor/layers/quantization/compressed_tensors/utils.py"

/-- The Patch 4 loop of patch_transformers.py (lines 57-96): for each
existing root, if the target file exists apply `patch4Step` and write back
only in the applied branch; a missing file is skipped silently. -/
def patch4Runner (fs : Fs) : Fs :=
  (vllmRoots fs).foldl
    (fun acc root =>
      match acc.readFile (utilsPathOf root) with
      | none => acc
      | some content =>
          let r := patch4Step content
          if r.2 = Outcome.applied then acc.writeFile (utilsPathOf root) r.1
          else acc)
    fs

/-- Entry of a directory tree, for the cache-invalidation model: a path as
a component list and a file/directory flag. -/
structure FsEntry where
  path : List String
  isDir : Bool
deriving DecidableEq

/-- Last path component (the entry's basename). -/
def lastComp (e : FsEntry) : String := e.path.getLastD ""

/-- Python `fn.endswith('.pyc')`. -/
def endsWithPyc (name : String) : Bool := suffixCheck ((".pyc").data) name.data

/-- A compiled-artifact cache file: a file whose basename ends in `.pyc`. -/
def isPycFile (e : FsEntry) : Bool := !e.isDir && endsWithPyc (lastComp e)

/-- An entry inside (or equal to) a `__pycache__` directory. -/
def inPycache (e : FsEntry) : Bool := e.path.contains ("__pycache__")

/-- Post-write cleanup of patch_streaming.py (lines 139-143, also 33-36):
`os.walk` removing exactly the files whose name ends in `.pyc`;
directories are never removed. -/
def clearPycFiles (t : List FsEntry) : List FsEntry :=
  t.filter (fun e => !(isPycFile e))

/-- Patch 5 first half (patch_transformers.py lines 294, 297-298):
`find <root> -name '*.pyc' -delete`, removing entries whose basename
matches `*.pyc`. -/
def findDeletePyc (t : List FsEntry) : List FsEntry :=
  t.filter (fun e => !(endsWithPyc (lastComp e)))

/-- Patch 5 second half (patch_transformers.py lines 295-296, 299-301):
`find <root> -name __pycache__ -type d -exec rm -rf`, removing every
`__pycache__` directory together with everything below it. -/
def rmRfPycache (t : List FsEntry) : List FsEntry :=
  t.filter (fun e => !(inPycache e))

/-- Patch 5 of patch_transformers.py (lines 292-301): both cleanups in
script order. -/
def patch5Clean (t : List FsEntry) : List FsEntry :=
  rmRfPycache (findDeletePyc t)

/-- A `__pycache__` directory under the anthropic package subtree, the
subtree cleaned by patch_streaming.py after a successful write. -/
def anthPycacheDir : FsEntry :=
  { path := ["vllm", "entrypoints", "anthropic", "__pycache__"], isDir := true }

/-- A live callable of the runtime interception guard model: either an
original imported function, or one of sitecustomize.py's wrappers
(`compat_encoding_for_model` and `compat_openai_inference` close over the
callable they wrapped; `compat_main` does not delegate to the original). -/
inductive Callable where
  | orig (name : String)
  | wrappedEnc (inner : Callable)
  | wrappedInf (inner : Callable)
  | wrappedMain
deriving DecidableEq

/-- Process state seen by `_patch_swebench_main` of sitecustomize.py:
whether the two optional imports succeed, and the three target callables
(`tiktoken.encoding_for_model`, `api.openai_inference`, `api.main`). -/
structure ShimState where
  tiktokenAvailable : Bool
  swebenchAvailable : Bool
  encodingForModel : Callable
  openaiInference : Callable
  mainFn : Callable
deriving DecidableEq

/-- `_patch_swebench_main` of sitecustomize.py (lines 18-139): return
immediately unless `LLAMA_SWAP_SWEBENCH_TEXT_COMPAT` is exactly "1";
wrap `tiktoken.encoding_for_model` when tiktoken imports; return silently
when the swebench import fails (keeping any tiktoken wrap already made);
otherwise also wrap `api.openai_inference` and replace `api.main`.
No already-wrapped check is performed anywhere. -/
def patchSwebenchMain (env : Option String) (st : ShimState) : ShimState :=
  if env ≠ some ("1") then st
  else
    let st1 :=
      if st.tiktokenAvailable then
        { st with encodingForModel := Callable.wrappedEnc st.encodingForModel }
      else st
    if !st1.swebenchAvailable then st1
    else
      { st1 with
          openaiInference := Callable.wrappedInf st1.openaiInference,
          mainFn := Callable.wrappedMain }

/-- Demo state with both optional imports available. -/
def shimAll : ShimState :=
  { tiktokenAvailable := true, swebenchAvailable := true,
    encodingForModel := Callable.orig ("enc"),
    openaiInference := Callable.orig ("inf"),
    mainFn := Callable.orig ("main") }

/-- Demo state where tiktoken imports but swebench does not. -/
def shimTikOnly : ShimState :=
  { tiktokenAvailable := true, swebenchAvailable := false,
    encodingForModel := Callable.orig ("enc"),
    openaiInference := Callable.orig ("inf"),
    mainFn := Callable.orig ("main") }

/-- Dataset model for the sitecustomize.py compat shim: only the column
names matter to the embedded logic. -/
structure Dataset where
  column_names : List String
deriving DecidableEq

/-- Candidate text columns (sitecustomize.py line 12), in scan order. -/
def textCandidates : List String :=
  ["text", "problem_statement", "prompt", "question"]

/-- `_pick_text_column` of sitecustomize.py (lines 10-15): first candidate
present among the dataset's columns, defaulting to "text". -/
def pick_text_column (d : Dataset) : String :=
  match textCandidates.find? (fun c => d.column_names.contains c) with
  | some c => c
  | none => "text"

/-- `dataset.add_column("text", ...)` as it affects the column names. -/
def add_column (d : Dataset) (name : String) : Dataset :=
  { column_names := d.column_names ++ [name] }

/-- The dataset rewriting performed by `compat_openai_inference` of
sitecustomize.py (lines 45-59) before delegating to the original
`openai_inference`: when a dataset was passed and lacks a "text" column,
add one copied from the fallback column when a fallback exists. -/
def compat_openai_inference_dataset (d : Option Dataset) : Option Dataset :=
  match d with
  | none => none
  | some ds =>
      if ds.column_names.contains ("text") then some ds
      else
        if pick_text_column ds ≠ "text" then some (add_column ds ("text"))
        else some ds

theorem prefixCheck_iff (p s : List Char) :
    prefixCheck p s = true ↔ ∃ t, s = p ++ t := by
  induction p generalizing s with
  | nil => simp [prefixCheck]
  | cons c ps ih =>
      cases s with
      | nil =>
          simp [prefixCheck]
      | cons b bs =>
          simp only [prefixCheck, Bool.and_eq_true, beq_iff_eq, ih, List.cons_append]
          constructor
          · rintro ⟨rfl, t, rfl⟩
            exact ⟨t, rfl⟩
          · rintro ⟨t, ht⟩
            injection ht with h1 h2
            exact ⟨h1.symm, t, h2⟩

theorem containsSub_iff (p s : List Char) :
    containsSub p s = true ↔ ∃ a b, s = a ++ p ++ b := by
  induction s with
  | nil =>
      simp only [containsSub, List.isEmpty_iff]
      constructor
      · rintro rfl
        exact ⟨[], [], rfl⟩
      · rintro ⟨a, b, h⟩
        rcases List.append_eq_nil.mp (List.append_eq_nil.mp h.symm).1 with ⟨-, hp⟩
        exact hp
  | cons c cs ih =>
      simp only [containsSub, Bool.or_eq_true, prefixCheck_iff, ih]
      constructor
      · rintro (⟨t, ht⟩ | ⟨a, b, hab⟩)
        · exact ⟨[], t, by simp [ht]⟩
        · exact ⟨c :: a, b, by simp [hab]⟩
      · rintro ⟨a, b, hab⟩
        cases a with
        | nil =>
            exact Or.inl ⟨b, by simpa using hab⟩
        | cons a0 as =>
            injection hab with h1 h2
            exact Or.inr ⟨as, b, h2⟩

theorem containsSub_parts (p a b s : List Char) (h : s = a ++ p ++ b) :
    containsSub p s = true :=
  (containsSub_iff p s).mpr ⟨a, b, h⟩

theorem containsSub_self (p : List Char) : containsSub p p = true :=
  containsSub_parts p [] [] p (by simp)

theorem containsSub_trans (p q s : List Char) (hpq : containsSub p q = true)
    (hqs : containsSub q s = true) : containsSub p s = true := by
  rcases (containsSub_iff p q).mp hpq with ⟨a, b, hq⟩
  rcases (containsSub_iff q s).mp hqs with ⟨c, d, hs⟩
  exact containsSub_parts p (c ++ a) (b ++ d) s
    (by rw [hs, hq]; simp [List.append_assoc])

theorem replaceOne_head (p r t : List Char) (hp : p ≠ []) :
    replaceOne p r (p ++ t) = r ++ t := by
  cases p with
  | nil => exact absurd rfl hp
  | cons c ps =>
      have hpc : prefixCheck (c :: ps) (c :: (ps ++ t)) = true :=
        (prefixCheck_iff _ _).mpr ⟨t, by simp⟩
      show replaceOne (c :: ps) r (c :: (ps ++ t)) = r ++ t
      simp [replaceOne, hpc, List.drop_left]

theorem sub_replaceOne (p r s : List Char) (hp : p ≠ [])
    (h : containsSub p s = true) :
    ∃ a b, replaceOne p r s = a ++ r ++ b := by
  induction s with
  | nil =>
      rw [containsSub, List.isEmpty_iff] at h
      exact absurd h hp
  | cons c cs ih =>
      by_cases hpc : prefixCheck p (c :: cs) = true
      · exact ⟨[], cs.drop (p.length - 1), by simp [replaceOne, hpc]⟩
      · rw [containsSub, Bool.or_eq_true] at h
        rcases h with h | h
        · exact absurd h hpc
        · rcases ih h with ⟨a, b, hab⟩
          exact ⟨c :: a, b, by simp [replaceOne, hpc, hab]⟩

theorem replaceAllGo_fuel (p r : List Char) (f1 : Nat) :
    ∀ (f2 : Nat) (s : List Char), s.length ≤ f1 → s.length ≤ f2 →
      replaceAllGo p r f1 s = replaceAllGo p r f2 s := by
  induction f1 with
  | zero =>
      intro f2 s h1 h2
      cases s with
      | nil => cases f2 <;> simp [replaceAllGo]
      | cons c cs => simp at h1
  | succ f ih =>
      intro f2 s h1 h2
      cases s with
      | nil => cases f2 <;> simp [replaceAllGo]
      | cons c cs =>
          cases f2 with
          | zero => simp at h2
          | succ g =>
              simp only [List.length_cons, Nat.succ_le_succ_iff] at h1 h2
              by_cases hpc : prefixCheck p (c :: cs) = true
              · simp only [replaceAllGo, hpc, if_true]
                have hd : (cs.drop (p.length - 1)).length ≤ cs.length := by
                  simp [List.length_drop]
                exact congrArg (r ++ ·)
                  (ih g (cs.drop (p.length - 1)) (le_trans hd h1) (le_trans hd h2))
              · simp only [replaceAllGo, hpc, if_false]
                exact congrArg (c :: ·) (ih g cs h1 h2)

theorem replaceAll_head (p r t : List Char) (hp : p ≠ []) :
    replaceAll p r (p ++ t) = r ++ replaceAll p r t := by
  cases p with
  | nil => exact absurd rfl hp
  | cons c ps =>
      have hpc : prefixCheck (c :: ps) (c :: (ps ++ t)) = true :=
        (prefixCheck_iff _ _).mpr ⟨t, by simp⟩
      show replaceAll (c :: ps) r ((c :: ps) ++ t) = _
      rw [replaceAll, List.cons_append, List.length_cons, replaceAllGo]
      simp only [hpc, if_true, List.length_cons, Nat.add_sub_cancel,
        List.drop_left]
      rw [replaceAllGo_fuel (c :: ps) r ((ps ++ t).length) t.length t
        (by simp) (le_refl _)]
      rfl

theorem sub_replaceAllGo (p r : List Char) (fuel : Nat) :
    ∀ (s : List Char), p ≠ [] → s.length ≤ fuel → containsSub p s = true →
      ∃ a b, replaceAllGo p r fuel s = a ++ r ++ b := by
  induction fuel with
  | zero =>
      intro s hp hf h
      cases s with
      | nil =>
          rw [containsSub, List.isEmpty_iff] at h
          exact absurd h hp
      | cons c cs => simp at hf
  | succ f ih =>
      intro s hp hf h
      cases s with
      | nil =>
          rw [containsSub, List.isEmpty_iff] at h
          exact absurd h hp
      | cons c cs =>
          by_cases hpc : prefixCheck p (c :: cs) = true
          · exact ⟨[], replaceAllGo p r f (cs.drop (p.length - 1)),
              by simp [replaceAllGo, hpc]⟩
          · rw [containsSub, Bool.or_eq_true] at h
            rcases h with h | h
            · exact absurd h hpc
            · simp only [List.length_cons, Nat.succ_le_succ_iff] at hf
              rcases ih cs hp hf h with ⟨a, b, hab⟩
              exact ⟨c :: a, b, by simp [replaceAllGo, hpc, hab]⟩

theorem sub_replaceAll (p r s : List Char) (hp : p ≠ [])
    (h : containsSub p s = true) :
    ∃ a b, replaceAll p r s = a ++ r ++ b :=
  sub_replaceAllGo p r s.length s hp (le_refl _) h

theorem oldToolStart_ne_nil : oldToolStart ≠ [] := by decide

theorem oldRaise_ne_nil : oldRaise ≠ [] := by decide

theorem extraForbidSq_ne_nil : extraForbidSq ≠ [] := by decide

/-- C1: the spec claims that re-running a patch on the content it produced
leaves the content unchanged and reports already-applied (idempotence) for
every patch in the set. The code contradicts this for Patch 4: its
idempotency marker `'MoE fallback'` occurs only in the script's log
message and never in the replacement text `new_raise`, while the pattern
`old_raise` is a suffix of `new_raise`; hence on the content it just
produced Patch 4 matches again and re-applies, growing the file, and the
code's own `'Already patched'` branch is unreachable from its own output.
This theorem evaluates the code at the failing input (a file whose content
is exactly the `old_raise` block). -/
theorem claim1_bug :
    patch4Step oldRaise = (newRaise, Outcome.applied)
    ∧ patch4Step newRaise = (replaceAll oldRaise newRaise newRaise, Outcome.applied)
    ∧ replaceAll oldRaise newRaise newRaise ≠ newRaise
    ∧ containsSub moeMarker newRaise = false := by
  have h1 : containsSub oldRaise oldRaise = true := containsSub_self _
  have h2 : containsSub moeMarker oldRaise = false := by decide
  have h3 : containsSub oldRaise newRaise = true := by decide
  have h4 : containsSub moeMarker newRaise = false := by decide
  have hall : replaceAll oldRaise newRaise oldRaise = newRaise := by
    have h := replaceAll_head oldRaise newRaise [] oldRaise_ne_nil
    simpa using h
  refine ⟨?_, ?_, by decide, h4⟩
  · rw [patch4Step]
    simp [h1, h2, hall]
  · rw [patch4Step]
    simp [h3, h4]

/-- C2 counterexample: the claim says every patch replaces exactly the
first occurrence of its pattern, leaving other occurrences unchanged.
Patch 3 uses unbounded `str.replace`: on a file containing the pattern
twice, both occurrences are rewritten. -/
theorem claim2_counterexample :
    containsSub extraForbidSq (extraForbidSq ++ extraForbidSq) = true
    ∧ patch3FileStep (extraForbidSq ++ extraForbidSq)
        = (extraIgnoreSq ++ extraIgnoreSq, true)
    ∧ extraIgnoreSq ++ extraIgnoreSq ≠ extraIgnoreSq ++ extraForbidSq := by
  decide

/-- C2 amended: only Fix 2 bounds its replacement to the first occurrence
(`content.replace(old, new, 1)`), leaving the remainder of the file — and
any later occurrence in it — verbatim; the whole-content patches of
patch_transformers (Patch 3 shown here for its single-quoted variant, and
Patch 4) use unbounded `str.replace` and rewrite every occurrence,
recursing into the rest of the content. -/
theorem claim2_amended (rest rest2 rest3 : List Char) :
    fix2Step (oldToolStart ++ rest) = (newToolStart ++ rest, Outcome.applied)
    ∧ replaceAll oldRaise newRaise (oldRaise ++ rest2)
        = newRaise ++ replaceAll oldRaise newRaise rest2
    ∧ replaceAll extraForbidSq extraIgnoreSq (extraForbidSq ++ rest3)
        = extraIgnoreSq ++ replaceAll extraForbidSq extraIgnoreSq rest3 := by
  refine ⟨?_, replaceAll_head _ _ _ oldRaise_ne_nil,
    replaceAll_head _ _ _ extraForbidSq_ne_nil⟩
  have hc : containsSub oldToolStart (oldToolStart ++ rest) = true :=
    containsSub_parts _ [] rest _ (by simp)
  rw [fix2Step]
  simp [hc, replaceOne_head _ _ _ oldToolStart_ne_nil]

/-- C2 witness: the amended statement at the empty remainder. -/
theorem claim2_witness :
    fix2Step (oldToolStart ++ []) = (newToolStart ++ [], Outcome.applied)
    ∧ replaceAll oldRaise newRaise (oldRaise ++ [])
        = newRaise ++ replaceAll oldRaise newRaise []
    ∧ replaceAll extraForbidSq extraIgnoreSq (extraForbidSq ++ [])
        = extraIgnoreSq ++ replaceAll extraForbidSq extraIgnoreSq [] :=
  claim2_amended [] [] []

/-- C3 counterexample: the claim says the idempotency-marker check precedes
pattern matching for every patch, so a file containing the marker is
reported already-applied and left untouched even when a pattern also
matches. Fix 2 tests its pattern first: on a file containing both the
pattern and the marker `'glm47 parser sends'`, it transforms the file and
reports applied. -/
theorem claim3_counterexample :
    containsSub glm47Marker (oldToolStart ++ glm47Marker) = true
    ∧ fix2Step (oldToolStart ++ glm47Marker)
        = (newToolStart ++ glm47Marker, Outcome.applied)
    ∧ newToolStart ++ glm47Marker ≠ oldToolStart ++ glm47Marker
    ∧ Outcome.applied ≠ Outcome.alreadyApplied := by
  refine ⟨containsSub_parts _ oldToolStart [] _ (by simp), ?_, by decide, by decide⟩
  have hc : containsSub oldToolStart (oldToolStart ++ glm47Marker) = true :=
    containsSub_parts _ [] glm47Marker _ (by simp)
  rw [fix2Step]
  simp [hc, replaceOne_head _ _ _ oldToolStart_ne_nil]

/-- C3 amended: the marker-first contract holds for Fix 1 (its
`'_has_tc'` check is the first test, so a marked file is reported
already-applied with no transform regardless of the line patterns), while
for Fix 2 the marker short-circuit only applies when the pattern is absent
(the pattern test comes first). -/
theorem claim3_amended (s t : List Char)
    (h1 : containsSub hasTcMarker s = true)
    (h2 : containsSub oldToolStart t = false)
    (h3 : containsSub glm47Marker t = true) :
    fix1Step s = (s, Outcome.alreadyApplied)
    ∧ fix2Step t = (t, Outcome.alreadyApplied) := by
  constructor
  · rw [fix1Step]
    simp [h1]
  · rw [fix2Step]
    simp [h2, h3]

/-- C3 witness: the amended statement at concrete marked contents. -/
theorem claim3_witness :
    containsSub hasTcMarker hasTcMarker = true
    ∧ containsSub oldToolStart glm47Marker = false
    ∧ containsSub glm47Marker glm47Marker = true
    ∧ fix1Step hasTcMarker = (hasTcMarker, Outcome.alreadyApplied)
    ∧ fix2Step glm47Marker = (glm47Marker, Outcome.alreadyApplied) := by
  have h1 : containsSub hasTcMarker hasTcMarker = true := by decide
  have h2 : containsSub oldToolStart glm47Marker = false := by decide
  have h3 : containsSub glm47Marker glm47Marker = true := by decide
  exact ⟨h1, h2, h3, (claim3_amended hasTcMarker glm47Marker h1 h2 h3).1,
    (claim3_amended hasTcMarker glm47Marker h1 h2 h3).2⟩

/-- A compiled cache file under the anthropic package subtree. -/
def pycFileEntry : FsEntry :=
  { path := ["vllm", "entrypoints", "anthropic", "__pycache__",
             "serving.cpython-312.pyc"],
    isDir := false }

/-- An ordinary source file under the anthropic package subtree. -/
def srcFileEntry : FsEntry :=
  { path := ["vllm", "entrypoints", "anthropic", "serving.py"],
    isDir := false }

/-- C4 counterexample: the claim says every cache directory
(`__pycache__`) under the relevant subtree is removed after a successful
write. The post-write cleanup of patch_streaming.py removes only files
whose name ends in `.pyc`; a `__pycache__` directory under the anthropic
subtree survives it. -/
theorem claim4_counterexample :
    clearPycFiles [anthPycacheDir] = [anthPycacheDir]
    ∧ anthPycacheDir.isDir = true
    ∧ inPycache anthPycacheDir = true := by decide

/-- C4 amended: after a successful write, patch_streaming's cleanup
removes every `.pyc` cache file under the subtree it walks and is a no-op
on cache-file-free trees, but leaves `__pycache__` directories in place;
only patch_transformers' Patch 5 also removes `__pycache__` directories
(with everything below them), and it too is a no-op when no caches
exist. -/
theorem claim4_amended (t u v : List FsEntry)
    (hu : u.all (fun e => !(isPycFile e)) = true)
    (hv : v.all (fun e => !(endsWithPyc (lastComp e)) && !(inPycache e)) = true) :
    ((clearPycFiles t).all (fun e => !(isPycFile e)) = true)
    ∧ ((patch5Clean t).all
        (fun e => !(endsWithPyc (lastComp e)) && !(inPycache e)) = true)
    ∧ clearPycFiles u = u
    ∧ patch5Clean v = v := by
  refine ⟨?_, ?_, ?_, ?_⟩
  · simp only [clearPycFiles, List.all_eq_true]
    intro e he
    exact (List.mem_filter.mp he).2
  · simp only [patch5Clean, rmRfPycache, findDeletePyc, List.all_eq_true]
    intro e he
    have h1 := (List.mem_filter.mp he).2
    have h0 := (List.mem_filter.mp (List.mem_filter.mp he).1).2
    simp only [Bool.and_eq_true]
    exact ⟨h0, h1⟩
  · exact List.filter_eq_self.mpr (List.all_eq_true.mp hu)
  · have hv' := List.all_eq_true.mp hv
    have h1 : findDeletePyc v = v :=
      List.filter_eq_self.mpr (fun a ha => by
        have h := hv' a ha
        rw [Bool.and_eq_true] at h
        exact h.1)
    rw [patch5Clean, h1]
    exact List.filter_eq_self.mpr (fun a ha => by
      have h := hv' a ha
      rw [Bool.and_eq_true] at h
      exact h.2)

/-- C4 witness: the amended statement at concrete trees (a tree holding a
cache file and a cache directory; cache-free singleton trees for the
no-op parts). -/
theorem claim4_witness :
    ([srcFileEntry].all (fun e => !(isPycFile e)) = true)
    ∧ ([srcFileEntry].all
        (fun e => !(endsWithPyc (lastComp e)) && !(inPycache e)) = true)
    ∧ ((clearPycFiles [pycFileEntry, srcFileEntry]).all
        (fun e => !(isPycFile e)) = true)
    ∧ ((patch5Clean [pycFileEntry, srcFileEntry]).all
        (fun e => !(endsWithPyc (lastComp e)) && !(inPycache e)) = true)
    ∧ clearPycFiles [srcFileEntry] = [srcFileEntry]
    ∧ patch5Clean [srcFileEntry] = [srcFileEntry] := by
  have hu : [srcFileEntry].all (fun e => !(isPycFile e)) = true := by decide
  have hv : [srcFileEntry].all
      (fun e => !(endsWithPyc (lastComp e)) && !(inPycache e)) = true := by decide
  obtain ⟨a1, a2, a3, a4⟩ :=
    claim4_amended [pycFileEntry, srcFileEntry] [srcFileEntry] [srcFileEntry] hu hv
  exact ⟨hu, hv, a1, a2, a3, a4⟩

theorem lookupFile_updateFiles_ne (p q : String) (c : List Char)
    (fl : List (String × List Char)) (h : q ≠ p) :
    lookupFile q (updateFiles p c fl) = lookupFile q fl := by
  have hpq : (p == q) = false := beq_eq_false_iff_ne.mpr (Ne.symm h)
  induction fl with
  | nil => simp [updateFiles, lookupFile, hpq]
  | cons e rest ih =>
      obtain ⟨a, d⟩ := e
      by_cases hap : (a == p) = true
      · have : a = p := beq_iff_eq.mp hap
        subst this
        simp [updateFiles, lookupFile, hpq]
      · rw [updateFiles]
        simp only [hap, if_false]
        by_cases haq : (a == q) = true
        · simp [lookupFile, haq]
        · simp only [lookupFile, haq, if_false]
          exact ih

theorem fix0_preserves_serving (fs : Fs) (h : fs.readFile servingPath = none) :
    (fix0Step fs).readFile servingPath = none := by
  rw [fix0Step]
  cases hread : fs.readFile indCfgPath with
  | none => exact h
  | some src =>
      by_cases hm : containsSub a32Marker src = true
      · simp only [hm, if_true]
        exact h
      · simp only [hm, if_false]
        show lookupFile servingPath (updateFiles indCfgPath _ fs.files) = none
        rw [lookupFile_updateFiles_ne indCfgPath servingPath _ fs.files (by decide)]
        exact h

/-- C5 counterexample: the claim says a missing installation root or
target file yields a missing-target report for each patch bound to it and
never prevents the remaining (patch, root) pairs from being attempted.
patch_streaming.py opens serving.py unconditionally (line 44): on a
filesystem without it the script raises FileNotFoundError and terminates,
so Fix 1 and Fix 2 are never attempted and no outcome is reported. -/
theorem claim5_counterexample :
    streamingScript { files := [], dirs := [] } = Except.error ()
    ∧ vllmRoots { files := [], dirs := [] } = [] := by
  exact ⟨rfl, rfl⟩

/-- C5 amended: patch_transformers tolerates missing targets — candidate
roots are filtered by `os.path.isdir` and each per-root file by
`os.path.exists`, so with no readable target Patch 4 performs zero writes
(though the skip is silent, with no per-pair missing-target report) —
but patch_streaming opens serving.py without any existence check, so on a
filesystem lacking it the script aborts with the uncaught exception and
the remaining fixes are not attempted. -/
theorem claim5_amended (fs gs : Fs)
    (h1 : fs.readFile servingPath = none)
    (h2 : ∀ root, gs.readFile (utilsPathOf root) = none) :
    streamingScript fs = Except.error ()
    ∧ patch4Runner gs = gs := by
  constructor
  · rw [streamingScript]
    simp [fix0_preserves_serving fs h1]
  · rw [patch4Runner]
    generalize vllmRoots gs = roots
    induction roots with
    | nil => rfl
    | cons r rs ih =>
        rw [List.foldl_cons]
        simp only [h2 r]
        exact ih

/-- C5 witness: the amended statement at a filesystem having a vLLM root
directory but no files at all. -/
theorem claim5_witness :
    Fs.readFile { files := [], dirs := ["/opt/vllm/vllm-src/vllm"] } servingPath
      = none
    ∧ streamingScript { files := [], dirs := ["/opt/vllm/vllm-src/vllm"] }
        = Except.error ()
    ∧ patch4Runner { files := [], dirs := ["/opt/vllm/vllm-src/vllm"] }
        = { files := [], dirs := ["/opt/vllm/vllm-src/vllm"] } := by
  have h := claim5_amended
    { files := [], dirs := ["/opt/vllm/vllm-src/vllm"] }
    { files := [], dirs := ["/opt/vllm/vllm-src/vllm"] }
    rfl (fun _ => rfl)
  exact ⟨rfl, h.1, h.2⟩

/-- C6: pattern alternatives are tried in their fixed order and the first
match wins, with at most one alternative applied per file per run: for
Patch 8, whenever the newer (0.15) pattern occurs — in which case the
older (0.12) pattern, its suffix, also occurs — the applied transform is
exactly the 0.15 replacement. -/
theorem claim6 (s : List Char)
    (hm : containsSub escMarker s = false)
    (h15 : containsSub oldInit015 s = true) :
    containsSub oldInit012 s = true
    ∧ patch8Step s = (replaceAll oldInit015 newInit015 s, Outcome.applied) := by
  have h12 : containsSub oldInit012 s = true :=
    containsSub_trans oldInit012 oldInit015 s (by decide) h15
  refine ⟨h12, ?_⟩
  rw [patch8Step]
  simp [hm, h15]

/-- C6 witness: the statement at a file whose content is exactly the 0.15
pattern. -/
theorem claim6_witness :
    containsSub escMarker oldInit015 = false
    ∧ containsSub oldInit015 oldInit015 = true
    ∧ containsSub oldInit012 oldInit015 = true
    ∧ patch8Step oldInit015
        = (replaceAll oldInit015 newInit015 oldInit015, Outcome.applied) := by
  have hm : containsSub escMarker oldInit015 = false := by decide
  have h15 : containsSub oldInit015 oldInit015 = true := containsSub_self _
  exact ⟨hm, h15, (claim6 oldInit015 hm h15).1, (claim6 oldInit015 hm h15).2⟩

/-- C7: when `LLAMA_SWAP_SWEBENCH_TEXT_COMPAT` is not exactly "1"
(including when it is unset), running the runtime interception guard
leaves every target callable — and the whole process state — unchanged. -/
theorem claim7 (env : Option String) (st : ShimState) (h : env ≠ some ("1")) :
    patchSwebenchMain env st = st := by
  rw [patchSwebenchMain]
  simp [h]

/-- C7 witness: the statement with the variable unset. -/
theorem claim7_witness :
    ((none : Option String) ≠ some ("1"))
    ∧ patchSwebenchMain none shimAll = shimAll :=
  ⟨by decide, claim7 none shimAll (by decide)⟩

theorem wrappedEnc_ne (c : Callable) : Callable.wrappedEnc c ≠ c := by
  induction c with
  | orig n => intro h; cases h
  | wrappedEnc c ih => intro h; injection h with h'; exact ih h'
  | wrappedInf c ih => intro h; cases h
  | wrappedMain => intro h; cases h

/-- C8 counterexample: the claim says the guard checks for an
already-wrapped target and that running it twice with the flag set yields
the same wrapped state as running it once. `_patch_swebench_main` has no
such check: a second execution wraps the wrappers, producing a different
state. -/
theorem claim8_counterexample :
    patchSwebenchMain (some ("1")) (patchSwebenchMain (some ("1")) shimAll)
      ≠ patchSwebenchMain (some ("1")) shimAll := by decide

/-- C8 amended: the guard performs no already-wrapped check; with the flag
set and both imports available, each execution re-wraps the targets, so
two executions produce doubly-wrapped callables, a state different from
one execution's. (In practice the module body runs once per process,
because Python caches the sitecustomize import.) -/
theorem claim8_amended (st : ShimState)
    (h1 : st.tiktokenAvailable = true) (h2 : st.swebenchAvailable = true) :
    patchSwebenchMain (some ("1")) (patchSwebenchMain (some ("1")) st)
      = { st with
            encodingForModel :=
              Callable.wrappedEnc (Callable.wrappedEnc st.encodingForModel),
            openaiInference :=
              Callable.wrappedInf (Callable.wrappedInf st.openaiInference),
            mainFn := Callable.wrappedMain }
    ∧ Callable.wrappedEnc (Callable.wrappedEnc st.encodingForModel)
        ≠ Callable.wrappedEnc st.encodingForModel := by
  constructor
  · rw [patchSwebenchMain, patchSwebenchMain]
    simp [h1, h2]
  · intro h
    injection h with h'
    exact wrappedEnc_ne st.encodingForModel h'

/-- C8 witness: the amended statement at the demo state with both imports
available. -/
theorem claim8_witness :
    shimAll.tiktokenAvailable = true
    ∧ shimAll.swebenchAvailable = true
    ∧ patchSwebenchMain (some ("1")) (patchSwebenchMain (some ("1")) shimAll)
        = { shimAll with
              encodingForModel :=
                Callable.wrappedEnc (Callable.wrappedEnc shimAll.encodingForModel),
              openaiInference :=
                Callable.wrappedInf (Callable.wrappedInf shimAll.openaiInference),
              mainFn := Callable.wrappedMain }
    ∧ Callable.wrappedEnc (Callable.wrappedEnc shimAll.encodingForModel)
        ≠ Callable.wrappedEnc shimAll.encodingForModel :=
  ⟨rfl, rfl, (claim8_amended shimAll rfl rfl).1, (claim8_amended shimAll rfl rfl).2⟩

/-- C9 counterexample: the claim says that when the flag is set and an
optional dependency import fails, the guard ends inert with no target
callable wrapped. The tiktoken wrap happens before the swebench import is
attempted: with tiktoken importable and swebench not,
`tiktoken.encoding_for_model` is wrapped, so the process state changes. -/
theorem claim9_counterexample :
    patchSwebenchMain (some ("1")) shimTikOnly ≠ shimTikOnly
    ∧ (patchSwebenchMain (some ("1")) shimTikOnly).encodingForModel
        = Callable.wrappedEnc (Callable.orig ("enc")) := by decide

/-- C9 amended: when the flag is set and the swebench import fails, the
guard returns silently (the model is a total function: nothing is raised)
leaving `api.openai_inference` and `api.main` untouched, and the whole
state unchanged only when the tiktoken import also failed; when tiktoken
was importable, its already-performed wrap of
`tiktoken.encoding_for_model` remains in place. -/
theorem claim9_amended (st : ShimState) (h : st.swebenchAvailable = false) :
    (patchSwebenchMain (some ("1")) st).openaiInference = st.openaiInference
    ∧ (patchSwebenchMain (some ("1")) st).mainFn = st.mainFn
    ∧ (st.tiktokenAvailable = false → patchSwebenchMain (some ("1")) st = st)
    ∧ (st.tiktokenAvailable = true →
        (patchSwebenchMain (some ("1")) st).encodingForModel
          = Callable.wrappedEnc st.encodingForModel) := by
  cases htk : st.tiktokenAvailable <;>
    simp [patchSwebenchMain, h, htk]

/-- C9 witness: the amended statement at the demo state where tiktoken
imports and swebench does not. -/
theorem claim9_witness :
    shimTikOnly.swebenchAvailable = false
    ∧ (patchSwebenchMain (some ("1")) shimTikOnly).openaiInference
        = shimTikOnly.openaiInference
    ∧ (patchSwebenchMain (some ("1")) shimTikOnly).mainFn = shimTikOnly.mainFn
    ∧ (patchSwebenchMain (some ("1")) shimTikOnly).encodingForModel
        = Callable.wrappedEnc shimTikOnly.encodingForModel :=
  ⟨rfl, (claim9_amended shimTikOnly rfl).1, (claim9_amended shimTikOnly rfl).2.1,
    (claim9_amended shimTikOnly rfl).2.2.2 rfl⟩

/-- Demo dataset with a "text" column. -/
def dsText : Dataset := { column_names := ["instance_id", "text"] }

/-- Demo dataset whose fallback column is "problem_statement". -/
def dsPs : Dataset := { column_names := ["problem_statement", "instance_id"] }

/-- Demo dataset whose fallback column is "prompt". -/
def dsPrompt : Dataset := { column_names := ["prompt"] }

/-- Demo dataset whose fallback column is "question". -/
def dsQ : Dataset := { column_names := ["question"] }

/-- Demo dataset with none of the candidate columns. -/
def dsNone : Dataset := { column_names := ["instance_id"] }

/-- Demo dataset without "text" but with a later candidate column. -/
def dsQ2 : Dataset := { column_names := ["question", "instance_id"] }

/-- C10: `_pick_text_column` returns the first of "text",
"problem_statement", "prompt", "question" present among the dataset's
columns, and the string "text" when none is present; consequently
`compat_openai_inference` adds a "text" column exactly when "text" is
absent and some other candidate column exists (the picked fallback is
then a real column), and otherwise forwards the dataset unchanged. -/
theorem claim10 (d1 d2 d5 d6 d3 d4 : Dataset)
    (h1 : d1.column_names.contains ("text") = true)
    (h2a : d2.column_names.contains ("text") = false)
    (h2b : d2.column_names.contains ("problem_statement") = true)
    (h5a : d5.column_names.contains ("text") = false)
    (h5b : d5.column_names.contains ("problem_statement") = false)
    (h5c : d5.column_names.contains ("prompt") = true)
    (h6a : d6.column_names.contains ("text") = false)
    (h6b : d6.column_names.contains ("problem_statement") = false)
    (h6c : d6.column_names.contains ("prompt") = false)
    (h6d : d6.column_names.contains ("question") = true)
    (h3 : textCandidates.all (fun c => !(d3.column_names.contains c)) = true)
    (h4a : d4.column_names.contains ("text") = false)
    (h4b : pick_text_column d4 ≠ "text") :
    pick_text_column d1 = "text"
    ∧ compat_openai_inference_dataset (some d1) = some d1
    ∧ pick_text_column d2 = "problem_statement"
    ∧ compat_openai_inference_dataset (some d2) = some (add_column d2 ("text"))
    ∧ pick_text_column d5 = "prompt"
    ∧ pick_text_column d6 = "question"
    ∧ pick_text_column d3 = "text"
    ∧ compat_openai_inference_dataset (some d3) = some d3
    ∧ compat_openai_inference_dataset (some d4) = some (add_column d4 ("text"))
    ∧ d4.column_names.contains (pick_text_column d4) = true
    ∧ compat_openai_inference_dataset none = none := by
  have m1 : ("text" ∈ d1.column_names) := by simpa using h1
  have n2a : ("text" ∉ d2.column_names) := by simpa using h2a
  have m2b : ("problem_statement" ∈ d2.column_names) := by simpa using h2b
  have n5a : ("text" ∉ d5.column_names) := by simpa using h5a
  have n5b : ("problem_statement" ∉ d5.column_names) := by simpa using h5b
  have m5c : ("prompt" ∈ d5.column_names) := by simpa using h5c
  have n6a : ("text" ∉ d6.column_names) := by simpa using h6a
  have n6b : ("problem_statement" ∉ d6.column_names) := by simpa using h6b
  have n6c : ("prompt" ∉ d6.column_names) := by simpa using h6c
  have m6d : ("question" ∈ d6.column_names) := by simpa using h6d
  have h3' := List.all_eq_true.mp h3
  have n3a : ("text" ∉ d3.column_names) := by
    simpa using h3' "text" (by rw [textCandidates]; simp)
  have n3b : ("problem_statement" ∉ d3.column_names) := by
    simpa using h3' "problem_statement" (by rw [textCandidates]; simp)
  have n3c : ("prompt" ∉ d3.column_names) := by
    simpa using h3' "prompt" (by rw [textCandidates]; simp)
  have n3d : ("question" ∉ d3.column_names) := by
    simpa using h3' "question" (by rw [textCandidates]; simp)
  have n4a : ("text" ∉ d4.column_names) := by simpa using h4a
  have hp2 : pick_text_column d2 = "problem_statement" := by
    simp [pick_text_column, textCandidates, List.find?, n2a, m2b]
  have hp5 : pick_text_column d5 = "prompt" := by
    simp [pick_text_column, textCandidates, List.find?, n5a, n5b, m5c]
  have hp6 : pick_text_column d6 = "question" := by
    simp [pick_text_column, textCandidates, List.find?, n6a, n6b, n6c, m6d]
  have hp3 : pick_text_column d3 = "text" := by
    simp [pick_text_column, textCandidates, List.find?, n3a, n3b, n3c, n3d]
  have hp1 : pick_text_column d1 = "text" := by
    simp [pick_text_column, textCandidates, List.find?, m1]
  have hcontains4 : d4.column_names.contains (pick_text_column d4) = true := by
    rcases hfind : textCandidates.find? (fun c => d4.column_names.contains c) with
      _ | c
    · exact absurd (by rw [pick_text_column, hfind]) h4b
    · have hc := List.find?_some hfind
      rw [pick_text_column, hfind]
      simpa using hc
  refine ⟨hp1, ?_, hp2, ?_, hp5, hp6, hp3, ?_, ?_, hcontains4, rfl⟩
  · simp [compat_openai_inference_dataset, m1]
  · simp [compat_openai_inference_dataset, n2a, hp2]
  · simp [compat_openai_inference_dataset, n3a, hp3]
  · simp [compat_openai_inference_dataset, n4a, h4b]

/-- C10 witness: the statement at concrete datasets for each column
configuration. -/
theorem claim10_witness :
    dsText.column_names.contains ("text") = true
    ∧ pick_text_column dsText = "text"
    ∧ compat_openai_inference_dataset (some dsText) = some dsText
    ∧ pick_text_column dsPs = "problem_statement"
    ∧ compat_openai_inference_dataset (some dsPs) = some (add_column dsPs ("text"))
    ∧ pick_text_column dsPrompt = "prompt"
    ∧ pick_text_column dsQ = "question"
    ∧ pick_text_column dsNone = "text"
    ∧ compat_openai_inference_dataset (some dsNone) = some dsNone
    ∧ compat_openai_inference_dataset (some dsQ2) = some (add_column dsQ2 ("text"))
    ∧ dsQ2.column_names.contains (pick_text_column dsQ2) = true
    ∧ compat_openai_inference_dataset none = none := by
  obtain ⟨a1, a2, a3, a4, a5, a6, a7, a8, a9, a10, a11⟩ :=
    claim10 dsText dsPs dsPrompt dsQ dsNone dsQ2
      (by decide) (by decide) (by decide) (by decide) (by decide) (by decide)
      (by decide) (by decide) (by decide) (by decide) (by decide) (by decide)
      (by decide)
  exact ⟨by decide, a1, a2, a3, a4, a5, a6, a7, a8, a9, a10, a11⟩
